import Mathlib

/-!
Verification of the mig-controller direct-migration reconcile logic
(`pkg/controller/directvolumemigration/migrate.go` and
`pkg/controller/directimagemigration/trace.go`).

The Go code is shallowly embedded: external calls (client lookups, the phase
step executor `Task.Run`) become explicit inputs describing their results, Go
errors become a record of the classification-relevant facts about an error
value (`IsConflict`, `errors.Is(_, FatalPlanError)`, `IsNotFound`, `Error()`),
and the reconciled object's status is threaded explicitly.
-/

set_option autoImplicit false

namespace Mig

/-- Embedding of a non-nil Go error value, reduced to the facts the control
flow inspects: `k8serrors.IsConflict(errorutil.Unwrap(e))`,
`errors.Is(e, FatalPlanError)`, `k8serrors.IsNotFound(e)`, and `e.Error()`.
`liberr.Wrap` preserves all four, so wrapping is the identity on this record. -/
structure GoError where
  isConflictK8s : Bool
  isFatalPlan : Bool
  isNotFound : Bool
  message : String
deriving DecidableEq, Repr

/-- Embedding of `liberr.Wrap` at the `error` (nil-able) level:
`Wrap(nil)` returns `nil`; wrapping a non-nil error adds caller context but
preserves the unwrap chain, hence all classification-relevant facts. -/
def liberrWrap : Option GoError → Option GoError
  | none => none
  | some e => some e

/-- Embedding of `migapi.Condition`: the fields used by migrate.go. -/
structure Condition where
  type_ : String
  status : String
  reason : String
  category : String
  message : String
  durable : Bool
deriving DecidableEq, Repr

/-- Embedding of the status block of a `DirectVolumeMigration`:
`Phase`, `PhaseDescription`, `Itinerary`, `Conditions`, `StartTimestamp`
(time modelled as `Nat`). -/
structure DVMStatus where
  phase : String
  phaseDescription : String
  itinerary : String
  conditions : List Condition
  startTimestamp : Option Nat
deriving DecidableEq, Repr

/-- Embedding of `metav1.OwnerReference`: the fields the code reads. -/
structure OwnerReference where
  kind : String
  name : String
  uid : String
deriving DecidableEq, Repr

/-- Embedding of `migapi.DirectVolumeMigration`: identity, owner references
and status. -/
structure DirectVolumeMigration where
  name : String
  ownerReferences : List OwnerReference
  status : DVMStatus
deriving DecidableEq, Repr

/-- Modelled from the spec: `MigPlan` with `Plan.Status.IsReady()` reduced to
the boolean it returns ("require `Plan.Status.IsReady()` — if not ready,
fail"); the plan's name labels its analytics records. -/
structure MigPlan where
  name : String
  statusIsReady : Bool
deriving DecidableEq, Repr

/-- Embedding of `migapi.MigMigration`: only its identity matters here. -/
structure MigMigration where
  name : String
deriving DecidableEq, Repr

/-- Embedding of `migapi.PlanResources`: the parent-plan-derived resource bag;
only the `MigPlan` member is read by migrate.go (`planResources.MigPlan`,
nil-able). -/
structure PlanResources where
  migPlan : Option MigPlan
deriving DecidableEq, Repr

/-- The zero value `&migapi.PlanResources{}`. -/
def emptyPlanResources : PlanResources := { migPlan := none }

/-- Embedding of a `MigAnalyticPersistentVolumeClaim` entry: volume name and
the `SparseFilesFound` flag. -/
structure MigAnalyticPV where
  name : String
  sparseFilesFound : Bool
deriving DecidableEq, Repr

/-- Embedding of a `MigAnalyticNamespace` entry: namespace name and its
persistent volumes. -/
structure MigAnalyticNS where
  namespace_ : String
  persistentVolumes : List MigAnalyticPV
deriving DecidableEq, Repr

/-- Embedding of a `MigAnalytic` item: `Spec.AnalyzeExtendedPVCapacity` and
`Status.Analytics.Namespaces`. -/
structure MigAnalytic where
  analyzeExtendedPVCapacity : Bool
  namespaces : List MigAnalyticNS
deriving DecidableEq, Repr

/-- Embedding of `migapi.MigCluster`: only its identity matters here. -/
structure MigCluster where
  name : String
deriving DecidableEq, Repr

/-- Embedding of the destination cluster's config map: its `Data` entries as
an association list (Go map keys are unique; only lookup is used). -/
structure ConfigMap where
  data : List (String × String)
deriving DecidableEq, Repr

/-- Embedding of `migapi.EndpointType` (a Go string type). -/
abbrev EndpointType := String

/-- The `migapi.Route` endpoint type constant. -/
def Route : EndpointType := "Route"

/-- The `migapi.ClusterIP` endpoint type constant. -/
def ClusterIP : EndpointType := "ClusterIP"

/-- The `migapi.NodePort` endpoint type constant. -/
def NodePort : EndpointType := "NodePort"

/-- The `migapi.RSYNC_ENDPOINT_TYPE` config key (a designated string key on
the destination cluster's configuration; its exact text is irrelevant to the
control flow). -/
def RSYNC_ENDPOINT_TYPE : String := "RSYNC_ENDPOINT_TYPE"

/-- Modelled from the spec: phase and condition-vocabulary constants defined
in task.go (not under src/): the terminal phases, condition types, statuses,
categories and fixed messages used by migrate.go. -/
def Completed : String := "Completed"

/-- Modelled from the spec: the terminal failure phase. -/
def MigrationFailed : String := "MigrationFailed"

/-- Modelled from the spec: the `Running` condition type. -/
def Running : String := "Running"

/-- Modelled from the spec: the `Failed` condition type. -/
def Failed : String := "Failed"

/-- Modelled from the spec: the `Succeeded` condition type. -/
def Succeeded : String := "Succeeded"

/-- Modelled from the spec: the `True` condition status constant. -/
def TrueStatus : String := "True"

/-- Modelled from the spec: the `Advisory` condition category. -/
def Advisory : String := "Advisory"

/-- Modelled from the spec: the `Critical` failure severity/category. -/
def Critical : String := "Critical"

/-- Modelled from the spec: the `Warn` failure severity/category. -/
def Warn : String := "Warn"

/-- Modelled from the spec: the fixed advisory message of the `Succeeded`
condition. -/
def SucceededMessage : String := "The migration has completed successfully."

/-- Modelled from the spec: `RunningMessage` formatted with the step counter,
"step N of total". -/
def runningMessage (n total : Nat) : String :=
  "Step: " ++ toString n ++ "/" ++ toString total

/-- Modelled from the spec: the requeue directives (Go `time.Duration`,
modelled in nanoseconds). `NoReQ` is zero; `FastReQ` is a short interval. -/
def NoReQ : Nat := 0

/-- Modelled from the spec: the fast-requeue interval used on conflict. -/
def FastReQ : Nat := 100000000

/-- Embedding of `Status.FindCondition`: first condition of the given type. -/
def DVMStatus.findCondition (s : DVMStatus) (t : String) : Option Condition :=
  s.conditions.find? (fun c => c.type_ == t)

/-- Embedding of `Status.SetCondition`: replace the condition of the same
type if present, otherwise append. -/
def DVMStatus.setCondition (s : DVMStatus) (c : Condition) : DVMStatus :=
  if s.conditions.any (fun x => x.type_ == c.type_) then
    { s with conditions := s.conditions.map (fun x => if x.type_ == c.type_ then c else x) }
  else
    { s with conditions := s.conditions ++ [c] }

/-- Embedding of `Status.DeleteCondition`: remove all conditions of the given
type. -/
def DVMStatus.deleteCondition (s : DVMStatus) (t : String) : DVMStatus :=
  { s with conditions := s.conditions.filter (fun c => !(c.type_ == t)) }

/-- Modelled from the spec: an `Itinerary` is an immutable named ordered
sequence of phases (task.go is not under src/). -/
structure Itinerary where
  name : String
  phases : List String
deriving DecidableEq, Repr

/-- Modelled from the spec: `Itinerary.progressReport` reports the current
phase name as the step, its 1-based position in the itinerary (0 if absent),
and the total number of phases. -/
def Itinerary.progressReport (it : Itinerary) (phase : String) : String × Nat × Nat :=
  let total := it.phases.length
  let n := match it.phases.findIdx? (fun p => p == phase) with
    | some i => i + 1
    | none => 0
  (phase, n, total)

/-- Embedding of the `Task` execution context built by migrate.go: the fields
migrate.go reads back after `task.Run` — `Phase`, `PhaseDescription`,
`Itinerary`, `Requeue` — plus the owner's status (the `Owner` pointer aliases
the reconciled object, so condition writes made through the task land on the
object's status). -/
structure Task where
  phase : String
  phaseDescription : String
  itinerary : Itinerary
  requeue : Nat
  ownerStatus : DVMStatus
deriving DecidableEq, Repr

/-- Modelled from the spec: `Task.fail` (task.go is not under src/). On
failure the engine transitions the task to the given next phase and records a
durable `Failed=True` condition on the owner whose category is the given
severity and whose message carries the error text (the joined reasons). -/
def Task.fail (t : Task) (nextPhase category : String) (reasons : List String) : Task :=
  { t with
    phase := nextPhase,
    ownerStatus := t.ownerStatus.setCondition
      { type_ := Failed, status := TrueStatus, reason := t.phase,
        category := category, message := String.intercalate ", " reasons,
        durable := true } }

/-- Modelled from the spec: the observable outcome of the phase step executor
`Task.Run` (task.go is not under src/) for one reconcile: the task's final
phase, phase description, itinerary and phase-specified requeue interval, and
an optional error. The step executor advances the task; it does not write
failure conditions itself (classification happens in migrate.go). -/
structure RunOutcome where
  phase : String
  phaseDescription : String
  itinerary : Itinerary
  requeue : Nat
  runError : Option GoError
deriving DecidableEq, Repr

/-- Results of the external read calls a reconcile performs, given as inputs:
`GetMigrationForDVM`, `migration.GetPlan`, `plan.GetRefResources`, the
analytics `List`, `GetDestinationCluster`, `GetClient`,
`GetClusterConfigMap`, the step executor outcome, and the current time. -/
structure ReconcileEnv where
  migrationLookup : Except GoError (Option MigMigration)
  planLookup : Except GoError MigPlan
  refResources : Except GoError PlanResources
  analyticsList : Except GoError (List MigAnalytic)
  destCluster : Except GoError MigCluster
  destClient : Except GoError Unit
  clusterConfig : Except GoError ConfigMap
  runOutcome : RunOutcome
  now : Nat
deriving Repr

/-- Embedding of `getDVMPlanResources` (migrate.go lines 108-143), faithful to
the source line by line. Note the two branches that wrap the `err` variable at
a point where it is provably nil (`migration == nil` after a nil-error lookup,
and `!plan.Status.IsReady()` after a nil-error `GetPlan`): there
`liberr.Wrap(err)` is `Wrap(nil)`, which returns nil. -/
def getDVMPlanResources (direct : DirectVolumeMigration) (env : ReconcileEnv) :
    PlanResources × Option GoError :=
  if direct.ownerReferences.length > 0 then
    match env.migrationLookup with
    | .error err => (emptyPlanResources, liberrWrap (some err))
    | .ok migration =>
      match migration with
      | none =>
        -- migration == nil: wraps the (nil) err from the lookup
        (emptyPlanResources, liberrWrap none)
      | some _migration =>
        match env.planLookup with
        | .error err => (emptyPlanResources, liberrWrap (some err))
        | .ok plan =>
          if !plan.statusIsReady then
            -- plan not ready: wraps the (nil) err from GetPlan
            (emptyPlanResources, liberrWrap none)
          else
            match env.refResources with
            | .error err => (emptyPlanResources, liberrWrap (some err))
            | .ok planResources => (planResources, none)
  else
    (emptyPlanResources, none)

/-- Embedding of `getSparseFilePVCMap` (migrate.go lines 147-173). The Go map
is modelled as the list of keys inserted (every insertion writes `true`), so
key membership coincides with `map[key] == true`. The analytics list call's
result is an input. -/
def getSparseFilePVCMap (plan : Option MigPlan)
    (analyticsList : Except GoError (List MigAnalytic)) :
    Option (List String) × Option GoError :=
  let sparseFilesMap : List String := []
  match plan with
  | none => (some sparseFilesMap, none)
  | some _plan =>
    match analyticsList with
    | .error err => (none, liberrWrap (some err))
    | .ok items =>
      let m := items.foldl (fun acc migAnalytic =>
        if migAnalytic.analyzeExtendedPVCapacity then
          migAnalytic.namespaces.foldl (fun acc2 ns =>
            ns.persistentVolumes.foldl (fun acc3 pv =>
              if pv.sparseFilesFound then
                acc3 ++ [ns.namespace_ ++ "/" ++ pv.name]
              else acc3) acc2) acc
        else acc) sparseFilesMap
      (some m, none)

/-- Embedding of `getEndpointType` (migrate.go lines 176-200): resolve
destination cluster, client and cluster config (results given as inputs);
missing key defaults to `Route`; a recognized value is returned as-is; any
other value falls back to `Route` with no error. -/
def getEndpointType (destCluster : Except GoError MigCluster)
    (destClient : Except GoError Unit)
    (clusterConfig : Except GoError ConfigMap) :
    EndpointType × Option GoError :=
  match destCluster with
  | .error err => ("", liberrWrap (some err))
  | .ok _ =>
    match destClient with
    | .error err => ("", liberrWrap (some err))
    | .ok _ =>
      match clusterConfig with
      | .error err => ("", liberrWrap (some err))
      | .ok cfg =>
        match cfg.data.lookup RSYNC_ENDPOINT_TYPE with
        | none => (Route, none)
        | some endpointType =>
          if endpointType == Route || endpointType == ClusterIP
              || endpointType == NodePort then
            (endpointType, none)
          else
            (Route, none)

/-- Result of one `migrate` call: the reconciled object after the status
writes, the requeue duration, and the returned error. -/
structure MigrateResult where
  direct : DirectVolumeMigration
  requeue : Nat
  error : Option GoError
deriving DecidableEq, Repr

/-- Embedding of the tail of `migrate` (migrate.go lines 71-104): the Result
section persists `Phase`, `PhaseDescription` and `Itinerary`; on `Completed`
the `Running` condition is deleted and, when no `Failed` condition is present,
the `Succeeded` condition is set and `NoReQ` returned; otherwise the `Running`
condition is set from the progress report and the task's requeue returned. -/
def migrateResult (direct : DirectVolumeMigration) (task : Task) : MigrateResult :=
  -- Result
  let status1 : DVMStatus :=
    { task.ownerStatus with
      phaseDescription := task.phaseDescription,
      phase := task.phase,
      itinerary := task.itinerary.name }
  -- Completed
  if task.phase == Completed then
    let status2 := status1.deleteCondition Running
    match status2.findCondition Failed with
    | none =>
      let status3 := status2.setCondition
        { type_ := Succeeded, status := TrueStatus, reason := task.phase,
          category := Advisory, message := SucceededMessage, durable := true }
      { direct := { direct with status := status3 }, requeue := NoReQ, error := none }
    | some _ =>
      { direct := { direct with status := status2 }, requeue := NoReQ, error := none }
  else
    -- Running
    let report := task.itinerary.progressReport task.phase
    let status2 := status1.setCondition
      { type_ := Running, status := TrueStatus, reason := report.1,
        category := Advisory, message := runningMessage report.2.1 report.2.2,
        durable := false }
    { direct := { direct with status := status2 }, requeue := task.requeue, error := none }

/-- Embedding of the middle of `migrate` (migrate.go lines 35-69): stamp
`StartTimestamp` on first reconcile, run the task (the step executor's
mutation of the task is its given outcome), and classify a run error:
a conflict returns `FastReQ` with nil error before any status write; a
fatal-plan error fails the task with `Critical` severity, any other error
with `Warn`. -/
def migrateRun (direct : DirectVolumeMigration) (env : ReconcileEnv) : MigrateResult :=
  -- Started
  let status0 : DVMStatus :=
    if direct.status.startTimestamp.isNone then
      { direct.status with startTimestamp := some env.now }
    else
      direct.status
  let direct0 : DirectVolumeMigration := { direct with status := status0 }
  -- Run
  let task : Task :=
    { phase := env.runOutcome.phase,
      phaseDescription := env.runOutcome.phaseDescription,
      itinerary := env.runOutcome.itinerary,
      requeue := env.runOutcome.requeue,
      ownerStatus := status0 }
  match env.runOutcome.runError with
  | some err =>
    if err.isConflictK8s then
      { direct := direct0, requeue := FastReQ, error := none }
    else if err.isFatalPlan then
      migrateResult direct0 (task.fail MigrationFailed Critical [err.message])
    else
      migrateResult direct0 (task.fail MigrationFailed Warn [err.message])
  | none => migrateResult direct0 task

/-- Embedding of `migrate` (migrate.go lines 18-105): resolve plan resources,
sparse-file map and endpoint type — any resolver error returns `(0, wrapped
error)` before any status write — then stamp, run and project the result. -/
def migrate (direct : DirectVolumeMigration) (env : ReconcileEnv) : MigrateResult :=
  match getDVMPlanResources direct env with
  | (_, some err) => { direct := direct, requeue := 0, error := liberrWrap (some err) }
  | (planResources, none) =>
    match getSparseFilePVCMap planResources.migPlan env.analyticsList with
    | (_, some err) => { direct := direct, requeue := 0, error := liberrWrap (some err) }
    | (_, none) =>
      match getEndpointType env.destCluster env.destClient env.clusterConfig with
      | (_, some err) => { direct := direct, requeue := 0, error := liberrWrap (some err) }
      | (_, none) => migrateRun direct env

/-- Embedding of `migapi.DirectImageMigration`: identity and owner references
(trace.go reads `GetOwnerReferences()` and `Name`). -/
structure DirectImageMigration where
  name : String
  ownerReferences : List OwnerReference
deriving DecidableEq, Repr

/-- Embedding of an `opentracing.Span` value as the tree of how it was built:
either a registered migration root span (identified by the migration UID it
was registered under) or a span started as a child of a parent span. -/
inductive Span where
  | root (uid : String) : Span
  | child (name : String) (parent : Span) : Span
deriving DecidableEq, Repr

/-- Embedding of `initTracer` (trace.go lines 26-60). Inputs:
`settings.Settings.JaegerOpts.Enabled` and the span registry
`migtrace.GetSpanForMigrationUID` (UID to registered root span). The lazy
tracer initialization (lines 33-35) only caches the process-wide tracer
handle and has no bearing on the returned span. The owner-reference loop
assigns `migrationSpan` from the registry for every `MigMigration`-kind
reference, without breaking, which the fold reproduces. -/
def initTracer (enabled : Bool) (registry : String → Option Span)
    (dim : DirectImageMigration) : Option Span :=
  -- Exit if tracing disabled
  if !enabled then
    none
  else
    -- Get overall migration span
    let migrationSpan : Option Span := dim.ownerReferences.foldl
      (fun acc ownerRef =>
        if ownerRef.kind != "MigMigration" then acc
        else registry ownerRef.uid)
      none
    match migrationSpan with
    | none => none
    | some s =>
      -- Get span for current reconcile
      some (Span.child ("dim-reconcile-" ++ dim.name) s)

/-- Modelled from the spec: the Reconcile entry point that calls `migrate`
(reconcile code is not under src/). Per the spec, "Failures are always
recorded as a durable condition on the task object — never silently dropped —
except conflicts, which are intentionally invisible to the user": an error
returned by `migrate` that is not an optimistic-concurrency conflict is
recorded as a durable `Failed=True` condition carrying the error text before
the reconcile returns. -/
def reconcileRecordFailure (r : MigrateResult) : DirectVolumeMigration :=
  match r.error with
  | none => r.direct
  | some e =>
    if e.isConflictK8s then r.direct
    else
      let c : Condition :=
        { type_ := Failed, status := TrueStatus, reason := r.direct.status.phase,
          category := Warn, message := e.message, durable := true }
      { r.direct with status := r.direct.status.setCondition c }

/-- Modelled from the spec: `GetMigrationForDVM` "fetch parent Migration by
owner reference (fails with `NotFound` kind if absent — the lookup's own
absence is itself reported, not fabricated)". When the parent Migration is
absent, the lookup itself returns a NotFound-kind error naming the missing
object. -/
def migrationLookupAbsent (name : String) : Except GoError (Option MigMigration) :=
  Except.error
    { isConflictK8s := false, isFatalPlan := false, isNotFound := true,
      message := "migmigrations \x22" ++ name ++ "\x22 not found" }

/-! Helper lemmas about the condition-list operations. -/

theorem intercalate_singleton (s m : String) : String.intercalate s [m] = m := rfl

theorem find?_filter_of_imp {α : Type} (p q : α → Bool) (l : List α)
    (h : ∀ x, p x = true → q x = true) :
    (l.filter q).find? p = l.find? p := by
  induction l with
  | nil => rfl
  | cons a tl ih =>
    cases hq : q a with
    | true =>
      cases hp : p a with
      | true => simp [List.filter_cons, hq, List.find?, hp]
      | false => simp [List.filter_cons, hq, List.find?, hp, ih]
    | false =>
      have hp : p a = false := by
        cases hpa : p a with
        | true => exact absurd (h a hpa) (by simp [hq])
        | false => rfl
      simp [List.filter_cons, hq, List.find?, hp, ih]

theorem filter_filter_of_imp {α : Type} (p q : α → Bool) (l : List α)
    (h : ∀ x, p x = true → q x = true) :
    (l.filter q).filter p = l.filter p := by
  induction l with
  | nil => rfl
  | cons a tl ih =>
    cases hq : q a with
    | true => cases hp : p a <;> simp [List.filter_cons, hq, hp, ih]
    | false =>
      have hp : p a = false := by
        cases hpa : p a with
        | true => exact absurd (h a hpa) (by simp [hq])
        | false => rfl
      simp [List.filter_cons, hq, hp, ih]

theorem countP_filter_le {α : Type} (p q : α → Bool) (l : List α) :
    (l.filter q).countP p ≤ l.countP p := by
  induction l with
  | nil => simp
  | cons a tl ih =>
    cases hq : q a <;> cases hp : p a <;>
      simp [List.filter_cons, hq, List.countP_cons, hp] <;> omega

theorem filter_map_replace (p : Condition → Bool) (c : Condition) (l : List Condition)
    (hc : p c = true) :
    (l.map (fun x => if p x then c else x)).filter p = List.replicate (l.countP p) c := by
  induction l with
  | nil => rfl
  | cons a tl ih =>
    cases hp : p a with
    | true => simp [List.filter_cons, hp, hc, List.countP_cons, List.replicate_succ, ih]
    | false => simp [List.filter_cons, hp, List.countP_cons, ih]

theorem find?_map_replace (c : Condition) (t : String) (l : List Condition)
    (h : (c.type_ == t) = false) :
    (l.map (fun x => if x.type_ == c.type_ then c else x)).find? (fun x => x.type_ == t) =
      l.find? (fun x => x.type_ == t) := by
  induction l with
  | nil => rfl
  | cons a tl ih =>
    cases hac : a.type_ == c.type_ with
    | true =>
      have hct : c.type_ ≠ t := by simpa [beq_iff_eq] using h
      have hat : (a.type_ == t) = false := by
        have ha : a.type_ = c.type_ := by simpa [beq_iff_eq] using hac
        simp [beq_iff_eq, ha, hct]
      rw [List.map_cons, if_pos hac, List.find?_cons_of_neg _ (by simp [h]),
        List.find?_cons_of_neg _ (by simp [hat])]
      exact ih
    | false =>
      rw [List.map_cons, if_neg (by simp [hac])]
      cases hat : a.type_ == t with
      | true =>
        rw [List.find?_cons_of_pos _ (by simp [hat]), List.find?_cons_of_pos _ (by simp [hat])]
      | false =>
        rw [List.find?_cons_of_neg _ (by simp [hat]), List.find?_cons_of_neg _ (by simp [hat])]
        exact ih

/-- `SetCondition` only touches the conditions list. -/
@[simp] theorem setCondition_phase (s : DVMStatus) (c : Condition) :
    (s.setCondition c).phase = s.phase := by
  unfold DVMStatus.setCondition; split <;> rfl

/-- `SetCondition` only touches the conditions list. -/
@[simp] theorem setCondition_phaseDescription (s : DVMStatus) (c : Condition) :
    (s.setCondition c).phaseDescription = s.phaseDescription := by
  unfold DVMStatus.setCondition; split <;> rfl

/-- `SetCondition` only touches the conditions list. -/
@[simp] theorem setCondition_itinerary (s : DVMStatus) (c : Condition) :
    (s.setCondition c).itinerary = s.itinerary := by
  unfold DVMStatus.setCondition; split <;> rfl

/-- `SetCondition` only touches the conditions list. -/
@[simp] theorem setCondition_startTimestamp (s : DVMStatus) (c : Condition) :
    (s.setCondition c).startTimestamp = s.startTimestamp := by
  unfold DVMStatus.setCondition; split <;> rfl

/-- After `SetCondition c`, the condition `c` is present on the status. -/
theorem setCondition_mem_self (s : DVMStatus) (c : Condition) :
    c ∈ (s.setCondition c).conditions := by
  unfold DVMStatus.setCondition
  cases hany : s.conditions.any (fun x => x.type_ == c.type_) with
  | true =>
    simp only [if_pos rfl, hany, if_true]
    obtain ⟨x, hx, hxc⟩ := List.any_eq_true.mp hany
    exact List.mem_map.mpr ⟨x, hx, by simp [hxc]⟩
  | false => simp [hany]

/-- `SetCondition c` does not disturb conditions of other types (membership). -/
theorem setCondition_mem_of_ne (s : DVMStatus) (c d : Condition)
    (h : (d.type_ == c.type_) = false) (hd : d ∈ s.conditions) :
    d ∈ (s.setCondition c).conditions := by
  unfold DVMStatus.setCondition
  cases hany : s.conditions.any (fun x => x.type_ == c.type_) with
  | true =>
    simp only [hany, if_true]
    exact List.mem_map.mpr ⟨d, hd, by simp [h]⟩
  | false =>
    simp only [hany, Bool.false_eq_true, if_false]
    exact List.mem_append_left _ hd

/-- `FindCondition` for a type other than the one set is unchanged by
`SetCondition`. -/
theorem setCondition_find_of_ne (s : DVMStatus) (c : Condition) (t : String)
    (h : (c.type_ == t) = false) :
    (s.setCondition c).findCondition t = s.findCondition t := by
  unfold DVMStatus.setCondition DVMStatus.findCondition
  cases hany : s.conditions.any (fun x => x.type_ == c.type_) with
  | true => simp only [hany, if_true]; exact find?_map_replace c t s.conditions h
  | false =>
    simp only [hany, Bool.false_eq_true, if_false, List.find?_append]
    cases hfind : s.conditions.find? (fun x => x.type_ == t) with
    | some v => simp
    | none => simp [List.find?, h]

/-- After `DeleteCondition t`, no condition of type `t` is found. -/
theorem deleteCondition_find_self (s : DVMStatus) (t : String) :
    (s.deleteCondition t).findCondition t = none := by
  unfold DVMStatus.deleteCondition DVMStatus.findCondition
  simp only [List.find?_eq_none]
  intro c hc
  have := (List.mem_filter.mp hc).2
  simpa using this

/-- `FindCondition` for a type other than the deleted one is unchanged by
`DeleteCondition`. -/
theorem deleteCondition_find_of_ne (s : DVMStatus) (t u : String) (h : u ≠ t) :
    (s.deleteCondition t).findCondition u = s.findCondition u := by
  unfold DVMStatus.deleteCondition DVMStatus.findCondition
  exact find?_filter_of_imp _ _ s.conditions (by
    intro x hx
    have hxu : x.type_ = u := by simpa [beq_iff_eq] using hx
    simp [hxu, h])

/-- C8: when the destination cluster, its client and its config map resolve
successfully, `getEndpointType` returns `Route` with no error if the
endpoint-type config key is absent, returns the configured value when it is
one of `Route`, `ClusterIP`, `NodePort`, and returns `Route` with no error
(never an error) for any other value of the key. -/
theorem getEndpointType_policy (c : MigCluster) (cfg : ConfigMap) :
    (cfg.data.lookup RSYNC_ENDPOINT_TYPE = none →
      getEndpointType (Except.ok c) (Except.ok ()) (Except.ok cfg) = (Route, none)) ∧
    (∀ v : String, cfg.data.lookup RSYNC_ENDPOINT_TYPE = some v →
      ((v = Route ∨ v = ClusterIP ∨ v = NodePort) →
        getEndpointType (Except.ok c) (Except.ok ()) (Except.ok cfg) = (v, none)) ∧
      (¬(v = Route ∨ v = ClusterIP ∨ v = NodePort) →
        getEndpointType (Except.ok c) (Except.ok ()) (Except.ok cfg) = (Route, none))) := by
  refine ⟨fun h => by simp [getEndpointType, h], fun v hv => ⟨fun hin => ?_, fun hout => ?_⟩⟩
  · have : (v == Route || v == ClusterIP || v == NodePort) = true := by
      rcases hin with h | h | h <;> simp [h]
    simp [getEndpointType, hv, this]
  · have : (v == Route || v == ClusterIP || v == NodePort) = false := by
      push_neg at hout
      simp [beq_iff_eq, hout.1, hout.2.1, hout.2.2]
    simp [getEndpointType, hv, this]

/-- Witness for C8 at a concrete input: a configured `NodePort` value is
returned as-is with no error. -/
theorem getEndpointType_policy_witness :
    getEndpointType (Except.ok ({ name := "dest" } : MigCluster)) (Except.ok ())
        (Except.ok ({ data := [(RSYNC_ENDPOINT_TYPE, "NodePort")] } : ConfigMap)) =
      (NodePort, none) :=
  ((getEndpointType_policy { name := "dest" }
      { data := [(RSYNC_ENDPOINT_TYPE, "NodePort")] }).2 "NodePort"
    (by decide)).1 (Or.inr (Or.inr rfl))

/-- C5 (code bug), evaluation at the failing input: a task with an owner
reference whose parent Migration resolves and whose parent plan resolves but
is not ready. The source wraps the `err` variable, which is provably nil at
that point (`liberr.Wrap(nil)` returns nil), so `getDVMPlanResources` returns
an empty resource set and a nil error — resolution does not fail, contrary to
the claim and to the evident intent of the not-ready early return. -/
theorem getDVMPlanResources_not_ready_returns_nil_error :
    getDVMPlanResources
        { name := "dvm",
          ownerReferences := [{ kind := "MigMigration", name := "mig", uid := "u1" }],
          status := { phase := "", phaseDescription := "", itinerary := "",
                      conditions := [], startTimestamp := none } }
        { migrationLookup := Except.ok (some { name := "mig" }),
          planLookup := Except.ok { name := "plan", statusIsReady := false },
          refResources := Except.ok emptyPlanResources,
          analyticsList := Except.ok [],
          destCluster := Except.ok { name := "dest" },
          destClient := Except.ok (),
          clusterConfig := Except.ok { data := [] },
          runOutcome := { phase := "", phaseDescription := "",
                          itinerary := { name := "", phases := [] },
                          requeue := 0, runError := none },
          now := 0 } =
      (emptyPlanResources, none) := by
  rfl

/-- C6: when the parent Migration is absent, the lookup itself reports the
absence as a NotFound-kind error, and `getDVMPlanResources` fails with exactly
that error (wrapping preserves it) — not a fabricated one. -/
theorem getDVMPlanResources_migration_absent_notFound
    (direct : DirectVolumeMigration) (env : ReconcileEnv) (migName : String)
    (howner : direct.ownerReferences.length > 0)
    (habsent : env.migrationLookup = migrationLookupAbsent migName) :
    ∃ e : GoError, (getDVMPlanResources direct env).2 = some e ∧
      e.isNotFound = true ∧ migrationLookupAbsent migName = Except.error e := by
  refine ⟨{ isConflictK8s := false, isFatalPlan := false, isNotFound := true,
            message := "migmigrations \x22" ++ migName ++ "\x22 not found" }, ?_, rfl, rfl⟩
  simp [getDVMPlanResources, howner, habsent, migrationLookupAbsent, liberrWrap]

/-- Witness for C6 at a concrete input. -/
theorem getDVMPlanResources_migration_absent_notFound_witness :
    ∃ e : GoError,
      (getDVMPlanResources
          { name := "dvm",
            ownerReferences := [{ kind := "MigMigration", name := "mig", uid := "u1" }],
            status := { phase := "", phaseDescription := "", itinerary := "",
                        conditions := [], startTimestamp := none } }
          { migrationLookup := migrationLookupAbsent "mig",
            planLookup := Except.ok { name := "plan", statusIsReady := true },
            refResources := Except.ok emptyPlanResources,
            analyticsList := Except.ok [],
            destCluster := Except.ok { name := "dest" },
            destClient := Except.ok (),
            clusterConfig := Except.ok { data := [] },
            runOutcome := { phase := "", phaseDescription := "",
                            itinerary := { name := "", phases := [] },
                            requeue := 0, runError := none },
            now := 0 }).2 = some e ∧
      e.isNotFound = true ∧ migrationLookupAbsent "mig" = Except.error e :=
  getDVMPlanResources_migration_absent_notFound _ _ "mig" (by decide) rfl

/-- C10: if any of the three resolvers fails (in evaluation order: plan
resources, then the sparse-file map, then the endpoint type), `migrate`
returns requeue duration 0 together with that wrapped error and the object —
phase, phase description, itinerary, conditions and start timestamp — exactly
as it was. -/
theorem migrate_resolver_error_atomic
    (direct : DirectVolumeMigration) (env : ReconcileEnv) (e : GoError)
    (h : (getDVMPlanResources direct env).2 = some e ∨
         ((getDVMPlanResources direct env).2 = none ∧
          (getSparseFilePVCMap (getDVMPlanResources direct env).1.migPlan
            env.analyticsList).2 = some e) ∨
         ((getDVMPlanResources direct env).2 = none ∧
          (getSparseFilePVCMap (getDVMPlanResources direct env).1.migPlan
            env.analyticsList).2 = none ∧
          (getEndpointType env.destCluster env.destClient env.clusterConfig).2 = some e)) :
    migrate direct env = { direct := direct, requeue := 0, error := some e } := by
  rcases h with h1 | ⟨h1, h2⟩ | ⟨h1, h2, h3⟩
  · rcases hpr : getDVMPlanResources direct env with ⟨prv, pre⟩
    rw [hpr] at h1
    obtain rfl : pre = some e := h1
    simp [migrate, hpr, liberrWrap]
  · rcases hpr : getDVMPlanResources direct env with ⟨prv, pre⟩
    rw [hpr] at h1 h2
    obtain rfl : pre = none := h1
    rcases hsm : getSparseFilePVCMap prv.migPlan env.analyticsList with ⟨smv, sme⟩
    rw [hsm] at h2
    obtain rfl : sme = some e := h2
    simp [migrate, hpr, hsm, liberrWrap]
  · rcases hpr : getDVMPlanResources direct env with ⟨prv, pre⟩
    rw [hpr] at h1 h2
    obtain rfl : pre = none := h1
    rcases hsm : getSparseFilePVCMap prv.migPlan env.analyticsList with ⟨smv, sme⟩
    rw [hsm] at h2
    obtain rfl : sme = none := h2
    rcases hep : getEndpointType env.destCluster env.destClient env.clusterConfig with ⟨epv, epe⟩
    rw [hep] at h3
    obtain rfl : epe = some e := h3
    simp [migrate, hpr, hsm, hep, liberrWrap]

/-- Witness for C10 at a concrete input: a failing analytics list call makes
`migrate` return `(0, that error)` with the object untouched. -/
theorem migrate_resolver_error_atomic_witness :
    migrate
        { name := "dvm",
          ownerReferences := [{ kind := "MigMigration", name := "mig", uid := "u1" }],
          status := { phase := "P1", phaseDescription := "d", itinerary := "It",
                      conditions := [], startTimestamp := none } }
        { migrationLookup := Except.ok (some { name := "mig" }),
          planLookup := Except.ok { name := "plan", statusIsReady := true },
          refResources := Except.ok { migPlan := some { name := "plan", statusIsReady := true } },
          analyticsList := Except.error
            { isConflictK8s := false, isFatalPlan := false, isNotFound := false,
              message := "list failed" },
          destCluster := Except.ok { name := "dest" },
          destClient := Except.ok (),
          clusterConfig := Except.ok { data := [] },
          runOutcome := { phase := "P2", phaseDescription := "d2",
                          itinerary := { name := "It", phases := ["P1", "P2"] },
                          requeue := 5, runError := none },
          now := 9 } =
      { direct :=
          { name := "dvm",
            ownerReferences := [{ kind := "MigMigration", name := "mig", uid := "u1" }],
            status := { phase := "P1", phaseDescription := "d", itinerary := "It",
                        conditions := [], startTimestamp := none } },
        requeue := 0,
        error := some
          { isConflictK8s := false, isFatalPlan := false, isNotFound := false,
            message := "list failed" } } :=
  migrate_resolver_error_atomic _ _ _ (Or.inr (Or.inl (by decide)))

/-- C1: on an optimistic-concurrency conflict from the step executor,
`migrate` returns `FastReQ` with a nil error, and the object's persisted
phase, phase description and conditions are exactly as before the call — in
particular no `Failed` condition is added. -/
theorem migrate_conflict_fast_requeue
    (direct : DirectVolumeMigration) (env : ReconcileEnv) (e : GoError)
    (h1 : (getDVMPlanResources direct env).2 = none)
    (h2 : (getSparseFilePVCMap (getDVMPlanResources direct env).1.migPlan
      env.analyticsList).2 = none)
    (h3 : (getEndpointType env.destCluster env.destClient env.clusterConfig).2 = none)
    (h4 : env.runOutcome.runError = some e)
    (h5 : e.isConflictK8s = true) :
    (migrate direct env).requeue = FastReQ ∧
    (migrate direct env).error = none ∧
    (migrate direct env).direct.status.phase = direct.status.phase ∧
    (migrate direct env).direct.status.phaseDescription = direct.status.phaseDescription ∧
    (migrate direct env).direct.status.conditions = direct.status.conditions := by
  rcases hpr : getDVMPlanResources direct env with ⟨prv, pre⟩
  rw [hpr] at h1 h2
  obtain rfl : pre = none := h1
  rcases hsm : getSparseFilePVCMap prv.migPlan env.analyticsList with ⟨smv, sme⟩
  rw [hsm] at h2
  obtain rfl : sme = none := h2
  rcases hep : getEndpointType env.destCluster env.destClient env.clusterConfig with ⟨epv, epe⟩
  rw [hep] at h3
  obtain rfl : epe = none := h3
  have hm : migrate direct env = migrateRun direct env := by
    simp [migrate, hpr, hsm, hep]
  rw [hm]
  by_cases hts : direct.status.startTimestamp.isNone <;>
    simp [migrateRun, h4, h5, hts, FastReQ]

/-- Witness for C1 at a concrete input. -/
theorem migrate_conflict_fast_requeue_witness :
    (migrate
        { name := "dvm", ownerReferences := [],
          status := { phase := "P1", phaseDescription := "d", itinerary := "It",
                      conditions := [], startTimestamp := none } }
        { migrationLookup := Except.ok none,
          planLookup := Except.ok { name := "plan", statusIsReady := true },
          refResources := Except.ok emptyPlanResources,
          analyticsList := Except.ok [],
          destCluster := Except.ok { name := "dest" },
          destClient := Except.ok (),
          clusterConfig := Except.ok { data := [] },
          runOutcome := { phase := "P2", phaseDescription := "d2",
                          itinerary := { name := "It", phases := ["P1", "P2"] },
                          requeue := 5,
                          runError := some
                            { isConflictK8s := true, isFatalPlan := false,
                              isNotFound := false, message := "conflict" } },
          now := 9 }).requeue = FastReQ := by
  have h := migrate_conflict_fast_requeue
    { name := "dvm", ownerReferences := [],
      status := { phase := "P1", phaseDescription := "d", itinerary := "It",
                  conditions := [], startTimestamp := none } }
    { migrationLookup := Except.ok none,
      planLookup := Except.ok { name := "plan", statusIsReady := true },
      refResources := Except.ok emptyPlanResources,
      analyticsList := Except.ok [],
      destCluster := Except.ok { name := "dest" },
      destClient := Except.ok (),
      clusterConfig := Except.ok { data := [] },
      runOutcome := { phase := "P2", phaseDescription := "d2",
                      itinerary := { name := "It", phases := ["P1", "P2"] },
                      requeue := 5,
                      runError := some
                        { isConflictK8s := true, isFatalPlan := false,
                          isNotFound := false, message := "conflict" } },
      now := 9 }
    { isConflictK8s := true, isFatalPlan := false, isNotFound := false,
      message := "conflict" }
    (by decide) (by decide) (by decide) (by decide) (by decide)
  exact h.1

/-- Helper: `migrateResult` on a task whose phase is `MigrationFailed` takes
the Running (non-terminal) branch, returns the task's requeue with nil error,
persists the `MigrationFailed` phase, and keeps every `Failed`-typed condition
already on the task's owner status. -/
theorem migrateResult_failed_mem (d : DirectVolumeMigration) (t : Task) (c : Condition)
    (hph : t.phase = MigrationFailed) (hc : c ∈ t.ownerStatus.conditions)
    (hty : c.type_ = Failed) :
    (migrateResult d t).direct.status.phase = MigrationFailed ∧
    (migrateResult d t).error = none ∧
    (migrateResult d t).requeue = t.requeue ∧
    c ∈ (migrateResult d t).direct.status.conditions := by
  unfold migrateResult
  rw [hph]
  have hne : ((MigrationFailed : String) == Completed) = false := by decide
  simp only [hne, Bool.false_eq_true, if_false]
  refine ⟨by simp, trivial, trivial, ?_⟩
  exact setCondition_mem_of_ne _ _ c (by simp [hty, Failed, Running, beq_iff_eq]) hc

/-- After `SetCondition c` on a status carrying at most one condition of
`c`'s type, the conditions of that type are exactly `[c]`. -/
theorem setCondition_filter_self (s : DVMStatus) (c : Condition)
    (h : s.conditions.countP (fun x => x.type_ == c.type_) ≤ 1) :
    (s.setCondition c).conditions.filter (fun x => x.type_ == c.type_) = [c] := by
  unfold DVMStatus.setCondition
  cases hany : s.conditions.any (fun x => x.type_ == c.type_) with
  | true =>
    simp only [hany, if_true]
    rw [filter_map_replace _ _ _ (by simp)]
    have h1 : 0 < s.conditions.countP (fun x => x.type_ == c.type_) :=
      List.countP_pos_iff.mpr (List.any_eq_true.mp hany)
    have h2 : s.conditions.countP (fun x => x.type_ == c.type_) = 1 := by omega
    rw [h2]
    rfl
  | false =>
    simp only [hany, Bool.false_eq_true, if_false]
    rw [List.filter_append]
    have hnil : s.conditions.filter (fun x => x.type_ == c.type_) = [] :=
      List.filter_eq_nil_iff.mpr (List.any_eq_false.mp hany)
    rw [hnil]
    simp

/-- Helper: `migrateResult` on a task whose phase is `Completed` deletes the
`Running` condition, returns `NoReQ` with nil error, and — depending on
whether a `Failed` condition is present on the owner status — either sets
exactly one `Succeeded` condition (when the owner carried at most one) or
leaves the `Succeeded` conditions untouched. -/
theorem migrateResult_completed (d : DirectVolumeMigration) (t : Task)
    (hph : t.phase = Completed)
    (hcount : t.ownerStatus.conditions.countP (fun c => c.type_ == Succeeded) ≤ 1) :
    (migrateResult d t).requeue = NoReQ ∧
    (migrateResult d t).error = none ∧
    (migrateResult d t).direct.status.findCondition Running = none ∧
    (t.ownerStatus.findCondition Failed = none →
      (migrateResult d t).direct.status.conditions.filter (fun c => c.type_ == Succeeded) =
        [{ type_ := Succeeded, status := TrueStatus, reason := Completed,
           category := Advisory, message := SucceededMessage, durable := true }]) ∧
    (t.ownerStatus.findCondition Failed ≠ none →
      (migrateResult d t).direct.status.conditions.filter (fun c => c.type_ == Succeeded) =
        t.ownerStatus.conditions.filter (fun c => c.type_ == Succeeded)) := by
  unfold migrateResult
  rw [hph]
  simp only [beq_self_eq_true, if_true]
  split
  next hf2 =>
    dsimp only
    rw [deleteCondition_find_of_ne _ _ _ (by decide)] at hf2
    have ht : t.ownerStatus.findCondition Failed = none := hf2
    refine ⟨rfl, rfl, ?_, fun _ => ?_, fun hne => absurd ht hne⟩
    · rw [setCondition_find_of_ne _ _ _ (by decide)]
      exact deleteCondition_find_self _ _
    · apply setCondition_filter_self _
        ({ type_ := Succeeded, status := TrueStatus, reason := Completed,
           category := Advisory, message := SucceededMessage, durable := true })
      exact le_trans (countP_filter_le _ _ _) hcount
  next c' hf2 =>
    dsimp only
    rw [deleteCondition_find_of_ne _ _ _ (by decide)] at hf2
    have ht : t.ownerStatus.findCondition Failed = some c' := hf2
    refine ⟨rfl, rfl, ?_, fun h => ?_, fun _ => ?_⟩
    · exact deleteCondition_find_self _ _
    · rw [h] at ht
      simp at ht
    · exact filter_filter_of_imp _ _ t.ownerStatus.conditions (by
        intro x hx
        have hxs : x.type_ = Succeeded := by simpa [beq_iff_eq] using hx
        simp [hxs, Succeeded, Running])

/-- C3: a non-conflict error from the step executor transitions the task to
`MigrationFailed` with a durable `Failed=True` condition carrying the error
text, whose category is `Critical` when the error is (in the `errors.Is`
sense) the fatal-plan error and `Warn` otherwise; `migrate` then returns once
with a nil error and the task's requeue — it does not loop internally. -/
theorem migrate_run_error_classified
    (direct : DirectVolumeMigration) (env : ReconcileEnv) (e : GoError)
    (h1 : (getDVMPlanResources direct env).2 = none)
    (h2 : (getSparseFilePVCMap (getDVMPlanResources direct env).1.migPlan
      env.analyticsList).2 = none)
    (h3 : (getEndpointType env.destCluster env.destClient env.clusterConfig).2 = none)
    (h4 : env.runOutcome.runError = some e)
    (h5 : e.isConflictK8s = false) :
    (migrate direct env).direct.status.phase = MigrationFailed ∧
    (migrate direct env).error = none ∧
    (migrate direct env).requeue = env.runOutcome.requeue ∧
    ∃ c ∈ (migrate direct env).direct.status.conditions,
      c.type_ = Failed ∧ c.status = TrueStatus ∧ c.durable = true ∧
      c.message = e.message ∧
      c.category = (if e.isFatalPlan then Critical else Warn) := by
  rcases hpr : getDVMPlanResources direct env with ⟨prv, pre⟩
  rw [hpr] at h1 h2
  obtain rfl : pre = none := h1
  rcases hsm : getSparseFilePVCMap prv.migPlan env.analyticsList with ⟨smv, sme⟩
  rw [hsm] at h2
  obtain rfl : sme = none := h2
  rcases hep : getEndpointType env.destCluster env.destClient env.clusterConfig with ⟨epv, epe⟩
  rw [hep] at h3
  obtain rfl : epe = none := h3
  have hm : migrate direct env = migrateRun direct env := by
    simp [migrate, hpr, hsm, hep]
  rw [hm]
  cases hfp : e.isFatalPlan with
  | false =>
    simp only [migrateRun, h4, h5, hfp, Bool.false_eq_true, if_false, Task.fail]
    refine ⟨(migrateResult_failed_mem _ _ _ rfl (setCondition_mem_self _ _) rfl).1,
            (migrateResult_failed_mem _ _ _ rfl (setCondition_mem_self _ _) rfl).2.1,
            (migrateResult_failed_mem _ _ _ rfl (setCondition_mem_self _ _) rfl).2.2.1,
            _, (migrateResult_failed_mem _ _ _ rfl (setCondition_mem_self _ _) rfl).2.2.2,
            rfl, rfl, rfl, intercalate_singleton ", " e.message, by simp [hfp]⟩
  | true =>
    simp only [migrateRun, h4, h5, hfp, Bool.false_eq_true, if_false, if_true, Task.fail]
    refine ⟨(migrateResult_failed_mem _ _ _ rfl (setCondition_mem_self _ _) rfl).1,
            (migrateResult_failed_mem _ _ _ rfl (setCondition_mem_self _ _) rfl).2.1,
            (migrateResult_failed_mem _ _ _ rfl (setCondition_mem_self _ _) rfl).2.2.1,
            _, (migrateResult_failed_mem _ _ _ rfl (setCondition_mem_self _ _) rfl).2.2.2,
            rfl, rfl, rfl, intercalate_singleton ", " e.message, by simp [hfp]⟩

/-- Witness for C3 at a concrete input: a generic (non-fatal, non-conflict)
step-executor error yields the `MigrationFailed` phase. -/
theorem migrate_run_error_classified_witness :
    (migrate
        { name := "dvm", ownerReferences := [],
          status := { phase := "P1", phaseDescription := "d", itinerary := "It",
                      conditions := [], startTimestamp := none } }
        { migrationLookup := Except.ok none,
          planLookup := Except.ok { name := "plan", statusIsReady := true },
          refResources := Except.ok emptyPlanResources,
          analyticsList := Except.ok [],
          destCluster := Except.ok { name := "dest" },
          destClient := Except.ok (),
          clusterConfig := Except.ok { data := [] },
          runOutcome := { phase := "P2", phaseDescription := "d2",
                          itinerary := { name := "It", phases := ["P1", "P2"] },
                          requeue := 5,
                          runError := some
                            { isConflictK8s := false, isFatalPlan := false,
                              isNotFound := false, message := "boom" } },
          now := 9 }).direct.status.phase = MigrationFailed := by
  exact (migrate_run_error_classified _ _
    { isConflictK8s := false, isFatalPlan := false, isNotFound := false, message := "boom" }
    (by decide) (by decide) (by decide) (by decide) (by decide)).1

/-- C2: a reconcile that ends in the `Completed` phase removes the `Running`
condition and returns `NoReQ` with a nil error; when no `Failed` condition is
on the object (which carries at most one `Succeeded` condition, the
`SetCondition` invariant), exactly one `Succeeded=True` condition — Advisory,
durable, with the fixed success message — results; when a `Failed` condition
exists, the `Succeeded` conditions are exactly as before (none is added). -/
theorem migrate_completed_succeeded
    (direct : DirectVolumeMigration) (env : ReconcileEnv)
    (h1 : (getDVMPlanResources direct env).2 = none)
    (h2 : (getSparseFilePVCMap (getDVMPlanResources direct env).1.migPlan
      env.analyticsList).2 = none)
    (h3 : (getEndpointType env.destCluster env.destClient env.clusterConfig).2 = none)
    (h4 : env.runOutcome.runError = none)
    (h5 : env.runOutcome.phase = Completed)
    (hcount : direct.status.conditions.countP (fun c => c.type_ == Succeeded) ≤ 1) :
    (migrate direct env).requeue = NoReQ ∧
    (migrate direct env).error = none ∧
    (migrate direct env).direct.status.findCondition Running = none ∧
    (direct.status.findCondition Failed = none →
      (migrate direct env).direct.status.conditions.filter (fun c => c.type_ == Succeeded) =
        [{ type_ := Succeeded, status := TrueStatus, reason := Completed,
           category := Advisory, message := SucceededMessage, durable := true }]) ∧
    (direct.status.findCondition Failed ≠ none →
      (migrate direct env).direct.status.conditions.filter (fun c => c.type_ == Succeeded) =
        direct.status.conditions.filter (fun c => c.type_ == Succeeded)) := by
  rcases hpr : getDVMPlanResources direct env with ⟨prv, pre⟩
  rw [hpr] at h1 h2
  obtain rfl : pre = none := h1
  rcases hsm : getSparseFilePVCMap prv.migPlan env.analyticsList with ⟨smv, sme⟩
  rw [hsm] at h2
  obtain rfl : sme = none := h2
  rcases hep : getEndpointType env.destCluster env.destClient env.clusterConfig with ⟨epv, epe⟩
  rw [hep] at h3
  obtain rfl : epe = none := h3
  have hm : migrate direct env = migrateRun direct env := by
    simp [migrate, hpr, hsm, hep]
  rw [hm]
  by_cases hts : direct.status.startTimestamp.isNone <;>
    simp only [migrateRun, h4, hts, Bool.false_eq_true, if_true, if_false] <;>
    exact migrateResult_completed _ _ h5 hcount

/-- Witness for C2 at a concrete input: with no pre-existing conditions the
result carries exactly the one fixed `Succeeded` condition. -/
theorem migrate_completed_succeeded_witness :
    (migrate
        { name := "dvm", ownerReferences := [],
          status := { phase := "P2", phaseDescription := "d", itinerary := "It",
                      conditions := [], startTimestamp := some 3 } }
        { migrationLookup := Except.ok none,
          planLookup := Except.ok { name := "plan", statusIsReady := true },
          refResources := Except.ok emptyPlanResources,
          analyticsList := Except.ok [],
          destCluster := Except.ok { name := "dest" },
          destClient := Except.ok (),
          clusterConfig := Except.ok { data := [] },
          runOutcome := { phase := "Completed", phaseDescription := "",
                          itinerary := { name := "It", phases := ["P1", "P2"] },
                          requeue := 0, runError := none },
          now := 9 }).direct.status.conditions.filter (fun c => c.type_ == Succeeded) =
      [{ type_ := Succeeded, status := TrueStatus, reason := Completed,
         category := Advisory, message := SucceededMessage, durable := true }] := by
  exact (migrate_completed_succeeded _ _
    (by decide) (by decide) (by decide) rfl rfl (by decide)).2.2.2.1 (by decide)

/-- The reconcile wrapper is the identity when `migrate` reports no error. -/
theorem reconcileRecordFailure_none (r : MigrateResult) (h : r.error = none) :
    reconcileRecordFailure r = r.direct := by
  unfold reconcileRecordFailure
  rw [h]

/-- `migrateResult` never reports an error itself. -/
theorem migrateResult_error_none (d : DirectVolumeMigration) (t : Task) :
    (migrateResult d t).error = none := by
  unfold migrateResult
  split
  · dsimp only
    split <;> rfl
  · rfl

/-- C4: every non-conflict error arising during a reconcile — from
plan-resource resolution, sparse-file-map resolution, endpoint-type resolution
or the step executor — ends up recorded as a durable `Failed=True` condition
carrying the error text on the task object before the reconcile returns. -/
theorem reconcile_records_nonconflict_failures
    (direct : DirectVolumeMigration) (env : ReconcileEnv) (e : GoError)
    (hnc : e.isConflictK8s = false)
    (h : (getDVMPlanResources direct env).2 = some e ∨
         ((getDVMPlanResources direct env).2 = none ∧
          (getSparseFilePVCMap (getDVMPlanResources direct env).1.migPlan
            env.analyticsList).2 = some e) ∨
         ((getDVMPlanResources direct env).2 = none ∧
          (getSparseFilePVCMap (getDVMPlanResources direct env).1.migPlan
            env.analyticsList).2 = none ∧
          (getEndpointType env.destCluster env.destClient env.clusterConfig).2 = some e) ∨
         ((getDVMPlanResources direct env).2 = none ∧
          (getSparseFilePVCMap (getDVMPlanResources direct env).1.migPlan
            env.analyticsList).2 = none ∧
          (getEndpointType env.destCluster env.destClient env.clusterConfig).2 = none ∧
          env.runOutcome.runError = some e)) :
    ∃ c ∈ (reconcileRecordFailure (migrate direct env)).status.conditions,
      c.type_ = Failed ∧ c.status = TrueStatus ∧ c.durable = true ∧
      c.message = e.message := by
  rcases h with h1 | ⟨h1, h2⟩ | ⟨h1, h2, h3⟩ | ⟨h1, h2, h3, h4⟩
  · rcases hpr : getDVMPlanResources direct env with ⟨prv, pre⟩
    rw [hpr] at h1
    obtain rfl : pre = some e := h1
    have hmig : migrate direct env = { direct := direct, requeue := 0, error := some e } := by
      simp [migrate, hpr, liberrWrap]
    rw [hmig]
    simp only [reconcileRecordFailure, hnc, Bool.false_eq_true, if_false]
    exact ⟨_, setCondition_mem_self _ _, rfl, rfl, rfl, rfl⟩
  · rcases hpr : getDVMPlanResources direct env with ⟨prv, pre⟩
    rw [hpr] at h1 h2
    obtain rfl : pre = none := h1
    rcases hsm : getSparseFilePVCMap prv.migPlan env.analyticsList with ⟨smv, sme⟩
    rw [hsm] at h2
    obtain rfl : sme = some e := h2
    have hmig : migrate direct env = { direct := direct, requeue := 0, error := some e } := by
      simp [migrate, hpr, hsm, liberrWrap]
    rw [hmig]
    simp only [reconcileRecordFailure, hnc, Bool.false_eq_true, if_false]
    exact ⟨_, setCondition_mem_self _ _, rfl, rfl, rfl, rfl⟩
  · rcases hpr : getDVMPlanResources direct env with ⟨prv, pre⟩
    rw [hpr] at h1 h2
    obtain rfl : pre = none := h1
    rcases hsm : getSparseFilePVCMap prv.migPlan env.analyticsList with ⟨smv, sme⟩
    rw [hsm] at h2
    obtain rfl : sme = none := h2
    rcases hep : getEndpointType env.destCluster env.destClient env.clusterConfig with ⟨epv, epe⟩
    rw [hep] at h3
    obtain rfl : epe = some e := h3
    have hmig : migrate direct env = { direct := direct, requeue := 0, error := some e } := by
      simp [migrate, hpr, hsm, hep, liberrWrap]
    rw [hmig]
    simp only [reconcileRecordFailure, hnc, Bool.false_eq_true, if_false]
    exact ⟨_, setCondition_mem_self _ _, rfl, rfl, rfl, rfl⟩
  · rcases hpr : getDVMPlanResources direct env with ⟨prv, pre⟩
    rw [hpr] at h1 h2
    obtain rfl : pre = none := h1
    rcases hsm : getSparseFilePVCMap prv.migPlan env.analyticsList with ⟨smv, sme⟩
    rw [hsm] at h2
    obtain rfl : sme = none := h2
    rcases hep : getEndpointType env.destCluster env.destClient env.clusterConfig with ⟨epv, epe⟩
    rw [hep] at h3
    obtain rfl : epe = none := h3
    have hm : migrate direct env = migrateRun direct env := by
      simp [migrate, hpr, hsm, hep]
    rw [hm]
    cases hfp : e.isFatalPlan with
    | false =>
      simp only [migrateRun, h4, hnc, hfp, Bool.false_eq_true, if_false, Task.fail]
      rw [reconcileRecordFailure_none _ (migrateResult_error_none _ _)]
      exact ⟨_, (migrateResult_failed_mem _ _ _ rfl (setCondition_mem_self _ _) rfl).2.2.2,
             rfl, rfl, rfl, intercalate_singleton ", " e.message⟩
    | true =>
      simp only [migrateRun, h4, hnc, hfp, Bool.false_eq_true, if_false, if_true, Task.fail]
      rw [reconcileRecordFailure_none _ (migrateResult_error_none _ _)]
      exact ⟨_, (migrateResult_failed_mem _ _ _ rfl (setCondition_mem_self _ _) rfl).2.2.2,
             rfl, rfl, rfl, intercalate_singleton ", " e.message⟩

/-- Witness for C4 at a concrete input: a failed plan-resource resolution is
recorded as a `Failed` condition by the reconcile. -/
theorem reconcile_records_nonconflict_failures_witness :
    ∃ c ∈ (reconcileRecordFailure (migrate
        { name := "dvm",
          ownerReferences := [{ kind := "MigMigration", name := "mig", uid := "u1" }],
          status := { phase := "P1", phaseDescription := "d", itinerary := "It",
                      conditions := [], startTimestamp := none } }
        { migrationLookup := Except.error
            { isConflictK8s := false, isFatalPlan := false, isNotFound := true,
              message := "not found" },
          planLookup := Except.ok { name := "plan", statusIsReady := true },
          refResources := Except.ok emptyPlanResources,
          analyticsList := Except.ok [],
          destCluster := Except.ok { name := "dest" },
          destClient := Except.ok (),
          clusterConfig := Except.ok { data := [] },
          runOutcome := { phase := "P2", phaseDescription := "d2",
                          itinerary := { name := "It", phases := ["P1", "P2"] },
                          requeue := 5, runError := none },
          now := 9 })).status.conditions,
      c.type_ = Failed ∧ c.status = TrueStatus ∧ c.durable = true ∧
      c.message = "not found" := by
  exact reconcile_records_nonconflict_failures _ _
    { isConflictK8s := false, isFatalPlan := false, isNotFound := true,
      message := "not found" }
    (by decide) (Or.inl (by decide))

/-- Membership in the inner per-volume fold of `getSparseFilePVCMap`. -/
theorem mem_sparse_foldl_pv (nsName key : String) (pvs : List MigAnalyticPV)
    (acc : List String) :
    key ∈ pvs.foldl (fun acc3 pv =>
      if pv.sparseFilesFound then acc3 ++ [nsName ++ "/" ++ pv.name] else acc3) acc ↔
    key ∈ acc ∨ ∃ pv ∈ pvs, pv.sparseFilesFound = true ∧
      key = nsName ++ "/" ++ pv.name := by
  induction pvs generalizing acc with
  | nil => simp
  | cons p tl ih =>
    cases hs : p.sparseFilesFound with
    | true =>
      simp only [List.foldl_cons, hs, if_true, ih, List.mem_append, List.mem_singleton,
        List.mem_cons, List.not_mem_nil, or_false]
      constructor
      · rintro ((h | h) | h)
        · exact Or.inl h
        · exact Or.inr ⟨p, Or.inl rfl, hs, h⟩
        · obtain ⟨pv, hpv, hsp, hk⟩ := h
          exact Or.inr ⟨pv, Or.inr hpv, hsp, hk⟩
      · rintro (h | ⟨pv, (rfl | hpv), hsp, hk⟩)
        · exact Or.inl (Or.inl h)
        · exact Or.inl (Or.inr hk)
        · exact Or.inr ⟨pv, hpv, hsp, hk⟩
    | false =>
      simp only [List.foldl_cons, hs, Bool.false_eq_true, if_false, ih, List.mem_cons]
      constructor
      · rintro (h | ⟨pv, hpv, hsp, hk⟩)
        · exact Or.inl h
        · exact Or.inr ⟨pv, Or.inr hpv, hsp, hk⟩
      · rintro (h | ⟨pv, (rfl | hpv), hsp, hk⟩)
        · exact Or.inl h
        · exact absurd hsp (by simp [hs])
        · exact Or.inr ⟨pv, hpv, hsp, hk⟩

/-- Membership in the per-namespace fold of `getSparseFilePVCMap`. -/
theorem mem_sparse_foldl_ns (key : String) (nss : List MigAnalyticNS)
    (acc : List String) :
    key ∈ nss.foldl (fun acc2 ns =>
      ns.persistentVolumes.foldl (fun acc3 pv =>
        if pv.sparseFilesFound then acc3 ++ [ns.namespace_ ++ "/" ++ pv.name] else acc3)
        acc2) acc ↔
    key ∈ acc ∨ ∃ ns ∈ nss, ∃ pv ∈ ns.persistentVolumes,
      pv.sparseFilesFound = true ∧ key = ns.namespace_ ++ "/" ++ pv.name := by
  induction nss generalizing acc with
  | nil => simp
  | cons n tl ih =>
    simp only [List.foldl_cons, ih, mem_sparse_foldl_pv, List.mem_cons]
    constructor
    · rintro ((h | ⟨pv, hpv, hsp, hk⟩) | ⟨ns, hns, pv, hpv, hsp, hk⟩)
      · exact Or.inl h
      · exact Or.inr ⟨n, Or.inl rfl, pv, hpv, hsp, hk⟩
      · exact Or.inr ⟨ns, Or.inr hns, pv, hpv, hsp, hk⟩
    · rintro (h | ⟨ns, (rfl | hns), pv, hpv, hsp, hk⟩)
      · exact Or.inl (Or.inl h)
      · exact Or.inl (Or.inr ⟨pv, hpv, hsp, hk⟩)
      · exact Or.inr ⟨ns, hns, pv, hpv, hsp, hk⟩

/-- Membership in the outer per-analytic fold of `getSparseFilePVCMap`. -/
theorem mem_sparse_foldl_items (key : String) (items : List MigAnalytic)
    (acc : List String) :
    key ∈ items.foldl (fun acc migAnalytic =>
      if migAnalytic.analyzeExtendedPVCapacity then
        migAnalytic.namespaces.foldl (fun acc2 ns =>
          ns.persistentVolumes.foldl (fun acc3 pv =>
            if pv.sparseFilesFound then
              acc3 ++ [ns.namespace_ ++ "/" ++ pv.name]
            else acc3) acc2) acc
      else acc) acc ↔
    key ∈ acc ∨ ∃ a ∈ items, a.analyzeExtendedPVCapacity = true ∧
      ∃ ns ∈ a.namespaces, ∃ pv ∈ ns.persistentVolumes,
        pv.sparseFilesFound = true ∧ key = ns.namespace_ ++ "/" ++ pv.name := by
  induction items generalizing acc with
  | nil => simp
  | cons a tl ih =>
    cases hx : a.analyzeExtendedPVCapacity with
    | true =>
      simp only [List.foldl_cons, hx, if_true, ih, mem_sparse_foldl_ns, List.mem_cons]
      constructor
      · rintro ((h | ⟨ns, hns, pv, hpv, hsp, hk⟩) | ⟨b, hb, hbx, hrest⟩)
        · exact Or.inl h
        · exact Or.inr ⟨a, Or.inl rfl, hx, ns, hns, pv, hpv, hsp, hk⟩
        · exact Or.inr ⟨b, Or.inr hb, hbx, hrest⟩
      · rintro (h | ⟨b, (rfl | hb), hbx, ns, hns, pv, hpv, hsp, hk⟩)
        · exact Or.inl (Or.inl h)
        · exact Or.inl (Or.inr ⟨ns, hns, pv, hpv, hsp, hk⟩)
        · exact Or.inr ⟨b, hb, hbx, ns, hns, pv, hpv, hsp, hk⟩
    | false =>
      simp only [List.foldl_cons, hx, Bool.false_eq_true, if_false, ih, List.mem_cons]
      constructor
      · rintro (h | ⟨b, hb, hbx, hrest⟩)
        · exact Or.inl h
        · exact Or.inr ⟨b, Or.inr hb, hbx, hrest⟩
      · rintro (h | ⟨b, (rfl | hb), hbx, hrest⟩)
        · exact Or.inl h
        · exact absurd hbx (by simp [hx])
        · exact Or.inr ⟨b, hb, hbx, hrest⟩

/-- C7: `getSparseFilePVCMap` returns an empty mapping and no error for a nil
plan; for a non-nil plan with a successful analytics list call it returns no
error, and the mapping contains key `namespace/volumeName` exactly when some
listed analytics record with `AnalyzeExtendedPVCapacity=true` has that
namespace with a volume flagged `SparseFilesFound=true` — volumes of records
with `AnalyzeExtendedPVCapacity=false` never appear. -/
theorem getSparseFilePVCMap_correct
    (plan : MigPlan) (listResult : Except GoError (List MigAnalytic))
    (items : List MigAnalytic) (key : String) :
    getSparseFilePVCMap none listResult = (some [], none) ∧
    (getSparseFilePVCMap (some plan) (Except.ok items)).2 = none ∧
    (∀ m, (getSparseFilePVCMap (some plan) (Except.ok items)).1 = some m →
      (key ∈ m ↔ ∃ a ∈ items, a.analyzeExtendedPVCapacity = true ∧
        ∃ ns ∈ a.namespaces, ∃ pv ∈ ns.persistentVolumes,
          pv.sparseFilesFound = true ∧ key = ns.namespace_ ++ "/" ++ pv.name)) := by
  refine ⟨rfl, rfl, fun m hm => ?_⟩
  simp only [getSparseFilePVCMap, Option.some.injEq] at hm
  subst hm
  rw [mem_sparse_foldl_items]
  simp

/-- Witness for C7 at a concrete input: the record with extended-capacity
analysis contributes its sparse volume; the record without it does not. -/
theorem getSparseFilePVCMap_correct_witness :
    ("ns1/pvc-a" ∈ (["ns1/pvc-a"] : List String) ↔
      ∃ a ∈ [({ analyzeExtendedPVCapacity := true, namespaces := [{ namespace_ := "ns1", persistentVolumes := [{ name := "pvc-a", sparseFilesFound := true }] }] } : MigAnalytic),
             ({ analyzeExtendedPVCapacity := false, namespaces := [{ namespace_ := "ns2", persistentVolumes := [{ name := "pvc-c", sparseFilesFound := true }] }] } : MigAnalytic)],
        a.analyzeExtendedPVCapacity = true ∧
        ∃ ns ∈ a.namespaces, ∃ pv ∈ ns.persistentVolumes,
          pv.sparseFilesFound = true ∧ "ns1/pvc-a" = ns.namespace_ ++ "/" ++ pv.name) :=
  (getSparseFilePVCMap_correct { name := "plan", statusIsReady := true }
    (Except.ok [])
    [({ analyzeExtendedPVCapacity := true, namespaces := [{ namespace_ := "ns1", persistentVolumes := [{ name := "pvc-a", sparseFilesFound := true }] }] } : MigAnalytic),
     ({ analyzeExtendedPVCapacity := false, namespaces := [{ namespace_ := "ns2", persistentVolumes := [{ name := "pvc-c", sparseFilesFound := true }] }] } : MigAnalytic)]
    "ns1/pvc-a").2.2 ["ns1/pvc-a"] rfl

/-- The owner-reference loop of `initTracer` leaves its accumulator untouched
when no reference has kind `MigMigration`. -/
theorem foldl_span_no_mig (registry : String → Option Span)
    (refs : List OwnerReference) (acc : Option Span)
    (h : refs.filter (fun r => r.kind == "MigMigration") = []) :
    refs.foldl (fun acc ownerRef =>
      if ownerRef.kind != "MigMigration" then acc else registry ownerRef.uid) acc = acc := by
  induction refs generalizing acc with
  | nil => rfl
  | cons a tl ih =>
    rw [List.filter_cons] at h
    cases hk : a.kind == "MigMigration" with
    | true =>
      rw [hk] at h
      simp at h
    | false =>
      rw [hk] at h
      simp only [Bool.false_eq_true, if_false] at h
      simp only [List.foldl_cons]
      rw [if_pos (by simp [bne, hk])]
      exact ih acc h

/-- The owner-reference loop of `initTracer` resolves to the registry lookup
of the unique `MigMigration`-kind reference, when there is exactly one. -/
theorem foldl_span_single (registry : String → Option Span)
    (refs : List OwnerReference) (r : OwnerReference) (acc : Option Span)
    (h : refs.filter (fun x => x.kind == "MigMigration") = [r]) :
    refs.foldl (fun acc ownerRef =>
      if ownerRef.kind != "MigMigration" then acc else registry ownerRef.uid) acc =
      registry r.uid := by
  induction refs generalizing acc with
  | nil => simp at h
  | cons a tl ih =>
    rw [List.filter_cons] at h
    cases hk : a.kind == "MigMigration" with
    | true =>
      rw [hk] at h
      simp only [if_pos, List.cons.injEq] at h
      obtain ⟨rfl, htl⟩ := h
      simp only [List.foldl_cons]
      rw [if_neg (by simp [bne, hk])]
      exact foldl_span_no_mig registry tl _ htl
    | false =>
      rw [hk] at h
      simp only [Bool.false_eq_true, if_false] at h
      simp only [List.foldl_cons]
      rw [if_pos (by simp [bne, hk])]
      exact ih acc h

/-- C9: `initTracer` returns no span when tracing is disabled, or when the
object has no `MigMigration` owner reference, or when no root span is
registered for the owning migration's UID; otherwise it returns a reconcile
span created as a child of that migration root span. (Stated for objects
with at most one `MigMigration`-kind owner reference — "the object's owning
MigMigration".) -/
theorem initTracer_correct (registry : String → Option Span)
    (dim : DirectImageMigration) :
    (initTracer false registry dim = none) ∧
    (dim.ownerReferences.filter (fun r => r.kind == "MigMigration") = [] →
      initTracer true registry dim = none) ∧
    (∀ r : OwnerReference,
      dim.ownerReferences.filter (fun x => x.kind == "MigMigration") = [r] →
      (registry r.uid = none → initTracer true registry dim = none) ∧
      (∀ s : Span, registry r.uid = some s →
        initTracer true registry dim =
          some (Span.child ("dim-reconcile-" ++ dim.name) s))) := by
  refine ⟨rfl, fun h => ?_, fun r hr => ⟨fun hn => ?_, fun s hs => ?_⟩⟩
  · simp only [initTracer, Bool.not_true, Bool.false_eq_true, if_false]
    rw [foldl_span_no_mig registry _ _ h]
  · simp only [initTracer, Bool.not_true, Bool.false_eq_true, if_false]
    rw [foldl_span_single registry _ r _ hr, hn]
  · simp only [initTracer, Bool.not_true, Bool.false_eq_true, if_false]
    rw [foldl_span_single registry _ r _ hr, hs]

/-- Witness for C9 at a concrete input: with tracing enabled and a root span
registered for the owning migration's UID, the reconcile span is a child of
that root span. -/
theorem initTracer_correct_witness :
    initTracer true
        (fun u => if u == "uid-1" then some (Span.root "uid-1") else none)
        { name := "dim", ownerReferences := [{ kind := "MigMigration", name := "mig", uid := "uid-1" }] } =
      some (Span.child "dim-reconcile-dim" (Span.root "uid-1")) :=
  ((initTracer_correct
      (fun u => if u == "uid-1" then some (Span.root "uid-1") else none)
      { name := "dim", ownerReferences := [{ kind := "MigMigration", name := "mig", uid := "uid-1" }] }).2.2
    { kind := "MigMigration", name := "mig", uid := "uid-1" } (by decide)).2
    (Span.root "uid-1") (by decide)

end Mig
